import Mathlib

/-!
Shallow embedding of the synthetic-data generator in
"Object Detection - Multiple Objects.ipynb" (cells defining
`generate_sample` and `create_dataset`), together with theorems that
settle the specification claims about it.

The Python random source is modelled as a stream of raw natural-number
draws `g : Nat → Nat`; each call to `random.randint(a, b)` consumes the
next raw draw `r` and returns `a + r % (b - a + 1)`, which is the value
in the inclusive range `[a, b]` selected by `r`.  All float arithmetic
in the generator (`/ IMG_SIZE`, `/ 255.0`) is exact in IEEE doubles
(all quotients are dyadic rationals with small numerators), so it is
modelled faithfully by `ℚ`.
-/

namespace ObjDet

/-- `IMG_SIZE = 64` from the notebook. -/
def IMG_SIZE : Nat := 64

/-- `NUM_CLASSES = 2  # red square, blue circle` from the notebook. -/
def NUM_CLASSES : Nat := 2

/-- Python `random.randint(a, b)`: a uniform integer in the inclusive
range `[a, b]`, modelled as consuming the raw draw `r` from the random
source and reducing it modulo the size of the range. -/
def randint (a b : Nat) (r : Nat) : Nat := a + r % (b - a + 1)

/-- A raw (pixel-coordinate) bounding box `x1, y1, x2, y2`. -/
structure RawBox where
  x1 : Nat
  y1 : Nat
  x2 : Nat
  y2 : Nat
  deriving Repr, DecidableEq

/-- A normalized bounding box, coordinates divided by `IMG_SIZE`. -/
structure Box where
  x1 : ℚ
  y1 : ℚ
  x2 : ℚ
  y2 : ℚ
  deriving Repr, DecidableEq

/-- An 8-bit RGB color. -/
structure Color where
  r : Nat
  g : Nat
  b : Nat
  deriving Repr, DecidableEq

def black : Color := ⟨0, 0, 0⟩
def red : Color := ⟨255, 0, 0⟩
def blue : Color := ⟨0, 0, 255⟩

/-- An image is a field of colors indexed by pixel coordinates
(the canvas is the `IMG_SIZE × IMG_SIZE` corner of it). -/
abbrev Img := Nat → Nat → Color

/-- `Image.new("RGB", (IMG_SIZE, IMG_SIZE), "black")`. -/
def blackImg : Img := fun _ _ => black

/-- Pixel membership in `draw.rectangle([x1, y1, x2, y2])`: PIL fills
the inclusive box. -/
def inRect (bb : RawBox) (px py : Nat) : Bool :=
  bb.x1 ≤ px && px ≤ bb.x2 && bb.y1 ≤ py && py ≤ bb.y2

/-- Pixel membership in `draw.ellipse([x1, y1, x2, y2])`: the ellipse
inscribed in the inclusive box, as the integer test
`dx² h² + dy² w² ≤ w² h²` on doubled centered coordinates. -/
def inEllipse (bb : RawBox) (px py : Nat) : Bool :=
  let w : Int := (bb.x2 : Int) - (bb.x1 : Int)
  let h : Int := (bb.y2 : Int) - (bb.y1 : Int)
  let dx : Int := 2 * (px : Int) - ((bb.x1 : Int) + (bb.x2 : Int))
  let dy : Int := 2 * (py : Int) - ((bb.y1 : Int) + (bb.y2 : Int))
  decide (dx ^ 2 * h ^ 2 + dy ^ 2 * w ^ 2 ≤ w ^ 2 * h ^ 2)

/-- `draw.rectangle([...], fill=c)`: paint `c` over every pixel of the
rectangle, keeping the rest of the image. -/
def drawRect (bb : RawBox) (c : Color) (img : Img) : Img :=
  fun px py => if inRect bb px py then c else img px py

/-- `draw.ellipse([...], fill=c)`: paint `c` over every pixel of the
ellipse, keeping the rest of the image. -/
def drawEllipse (bb : RawBox) (c : Color) (img : Img) : Img :=
  fun px py => if inEllipse bb px py then c else img px py

/-- The two `if cls == _:` draw statements of the loop body. -/
def drawShape (cls : Nat) (bb : RawBox) (img : Img) : Img :=
  let img1 := if cls = 0 then drawRect bb red img else img
  let img2 := if cls = 1 then drawEllipse bb blue img1 else img1
  img2

/-- The raw `x1` drawn at iteration `cls`: `random.randint(5, 30)`
consuming stream position `2 * cls`. -/
def rawX1 (g : Nat → Nat) (cls : Nat) : Nat := randint 5 30 (g (2 * cls))

/-- The raw `y1` drawn at iteration `cls`: `random.randint(5, 30)`
consuming stream position `2 * cls + 1`. -/
def rawY1 (g : Nat → Nat) (cls : Nat) : Nat := randint 5 30 (g (2 * cls + 1))

/-- The raw box of iteration `cls`: `x2, y2 = x1 + 20, y1 + 20`. -/
def rawBox (g : Nat → Nat) (cls : Nat) : RawBox :=
  ⟨rawX1 g cls, rawY1 g cls, rawX1 g cls + 20, rawY1 g cls + 20⟩

/-- `np.array([x1, y1, x2, y2]) / IMG_SIZE`. -/
def normBox (bb : RawBox) : Box :=
  ⟨(bb.x1 : ℚ) / (IMG_SIZE : ℚ), (bb.y1 : ℚ) / (IMG_SIZE : ℚ),
   (bb.x2 : ℚ) / (IMG_SIZE : ℚ), (bb.y2 : ℚ) / (IMG_SIZE : ℚ)⟩

/-- A bounds-checked list write, modelling `xs[i] = v` on a NumPy
array: fails (raises) when `i` is out of range. -/
def setAt (xs : List α) (i : Nat) (v : α) : Option (List α) :=
  if i < xs.length then some (xs.set i v) else none

/-- The mutable state threaded through the `for cls in range(...)` loop. -/
structure LoopState where
  img : Img
  labels : List ℚ
  bboxes : List Box

/-- One iteration of the loop body of `generate_sample`:
draw `x1, y1`, form the box, render the class shape, record the label
and the normalized box. -/
def loopBody (g : Nat → Nat) (cls : Nat) (st : LoopState) : Option LoopState := do
  let bb := rawBox g cls
  let img := drawShape cls bb st.img
  let labels ← setAt st.labels cls 1
  let bboxes ← setAt st.bboxes cls (normBox bb)
  pure ⟨img, labels, bboxes⟩

/-- `c / 255.0` applied componentwise (exact in `ℚ`). -/
def normColor (c : Color) : ℚ × ℚ × ℚ :=
  ((c.r : ℚ) / 255, (c.g : ℚ) / 255, (c.b : ℚ) / 255)

/-- The normalized image `np.array(img) / 255.0`. -/
abbrev NImg := Nat → Nat → ℚ × ℚ × ℚ

def normalizeImg (img : Img) : NImg := fun px py => normColor (img px py)

/-- The triple returned by `generate_sample`. -/
structure Sample where
  img : NImg
  labels : List ℚ
  bboxes : List Box

/-- `generate_sample()`: black canvas, zero labels and boxes, the loop
over classes, then the normalized image. -/
def generate_sample (g : Nat → Nat) : Option Sample := do
  let init : LoopState :=
    ⟨blackImg, List.replicate NUM_CLASSES 0, List.replicate NUM_CLASSES ⟨0, 0, 0, 0⟩⟩
  let st ← (List.range NUM_CLASSES).foldlM (fun st cls => loopBody g cls st) init
  pure ⟨normalizeImg st.img, st.labels, st.bboxes⟩

/-- The value `generate_sample` computes from the stream `g`
(established below: `generate_sample g = some (mkSample g)`). -/
def mkSample (g : Nat → Nat) : Sample :=
  ⟨normalizeImg (drawShape 1 (rawBox g 1) (drawShape 0 (rawBox g 0) blackImg)),
   [1, 1],
   [normBox (rawBox g 0), normBox (rawBox g 1)]⟩

/-- Advance the random source past `k` consumed draws. -/
def shiftRNG (g : Nat → Nat) (k : Nat) : Nat → Nat := fun i => g (i + k)

/-- The three parallel sequences returned by `create_dataset`. -/
abbrev DataSet := List NImg × List (List ℚ) × List (List Box)

/-- `create_dataset(num_samples)`: call `generate_sample` once per
iteration (each call consumes `2 * NUM_CLASSES = 4` raw draws) and
collect images, labels and boxes in call order. -/
def create_dataset : Nat → (Nat → Nat) → Option DataSet
  | 0, _ => some ([], [], [])
  | n + 1, g =>
      (generate_sample g).bind fun s =>
        (create_dataset n (shiftRNG g 4)).bind fun t =>
          some (s.img :: t.1, s.labels :: t.2.1, s.bboxes :: t.2.2)

/-- The value `create_dataset` computes from the stream `g`
(established below: `create_dataset n g = some (mkDataset n g)`). -/
def mkDataset : Nat → (Nat → Nat) → DataSet
  | 0, _ => ([], [], [])
  | n + 1, g =>
      let s := mkSample g
      let t := mkDataset n (shiftRNG g 4)
      (s.img :: t.1, s.labels :: t.2.1, s.bboxes :: t.2.2)

lemma generate_sample_eq (g : Nat → Nat) :
    generate_sample g = some (mkSample g) := rfl

lemma create_dataset_eq : ∀ (n : Nat) (g : Nat → Nat),
    create_dataset n g = some (mkDataset n g)
  | 0, _ => rfl
  | n + 1, g => by
      show (generate_sample g).bind _ = _
      rw [generate_sample_eq, create_dataset_eq n (shiftRNG g 4)]
      rfl

lemma rawX1_bounds (g : Nat → Nat) (cls : Nat) :
    5 ≤ rawX1 g cls ∧ rawX1 g cls ≤ 30 := by
  unfold rawX1 randint
  omega

lemma rawY1_bounds (g : Nat → Nat) (cls : Nat) :
    5 ≤ rawY1 g cls ∧ rawY1 g cls ≤ 30 := by
  unfold rawY1 randint
  omega

lemma div_sixtyfour_lt {a b : Nat} (h : a < b) :
    (a : ℚ) / (IMG_SIZE : ℚ) < (b : ℚ) / (IMG_SIZE : ℚ) := by
  rw [div_lt_div_iff_of_pos_right (by norm_num [IMG_SIZE])]
  exact_mod_cast h

lemma div_sixtyfour_le_one {a : Nat} (h : a ≤ IMG_SIZE) :
    (a : ℚ) / (IMG_SIZE : ℚ) ≤ 1 := by
  rw [div_le_one (by norm_num [IMG_SIZE])]
  exact_mod_cast h

lemma normBox_bounds (bb : RawBox) (hx : bb.x1 < bb.x2) (hx2 : bb.x2 ≤ IMG_SIZE)
    (hy : bb.y1 < bb.y2) (hy2 : bb.y2 ≤ IMG_SIZE) :
    0 ≤ (normBox bb).x1 ∧ (normBox bb).x1 < (normBox bb).x2 ∧ (normBox bb).x2 ≤ 1 ∧
    0 ≤ (normBox bb).y1 ∧ (normBox bb).y1 < (normBox bb).y2 ∧ (normBox bb).y2 ≤ 1 := by
  refine ⟨?_, div_sixtyfour_lt hx, div_sixtyfour_le_one hx2,
          ?_, div_sixtyfour_lt hy, div_sixtyfour_le_one hy2⟩ <;>
    · unfold normBox
      positivity

/-- C1 counterexample: the spec claims the raw draws lie in
`[5, IMG_SIZE - 35] = [5, 29]`, but `random.randint(5, 30)` is inclusive
of 30: the stream whose raw draw is 25 yields `x1 = 5 + 25 % 26 = 30`. -/
theorem C1_counterexample :
    ¬ (∀ (g : Nat → Nat) (cls : Nat), cls < NUM_CLASSES →
        5 ≤ rawX1 g cls ∧ rawX1 g cls ≤ IMG_SIZE - 35 ∧
        5 ≤ rawY1 g cls ∧ rawY1 g cls ≤ IMG_SIZE - 35) := by
  intro h
  have h2 := h (fun _ => 25) 0 (by norm_num [NUM_CLASSES])
  have h3 : rawX1 (fun _ => 25) 0 = 30 := rfl
  rw [h3] at h2
  norm_num [IMG_SIZE] at h2

/-- C1 (amended): the raw coordinates `x1` and `y1` are two random
integers drawn independently and uniformly from the closed range
`[5, IMG_SIZE - 34] = [5, 30]` (so that `x1 + 20` and `y1 + 20` stay
within `IMG_SIZE - 14`): every draw lands in that range, every value of
the range is attained by some raw draw, and on one period of raw draws
the map is injective, so a uniform raw draw induces a uniform value. -/
theorem C1_uniform_range (g : Nat → Nat) (cls : Nat) (hcls : cls < NUM_CLASSES)
    (v : Nat) (hv5 : 5 ≤ v) (hv30 : v ≤ IMG_SIZE - 34) :
    (5 ≤ rawX1 g cls ∧ rawX1 g cls ≤ IMG_SIZE - 34) ∧
    (5 ≤ rawY1 g cls ∧ rawY1 g cls ≤ IMG_SIZE - 34) ∧
    (∃ r, r < 26 ∧ randint 5 30 r = v) ∧
    (∀ r₁ r₂, r₁ < 26 → r₂ < 26 → randint 5 30 r₁ = randint 5 30 r₂ → r₁ = r₂) := by
  simp only [IMG_SIZE] at hv30 ⊢
  refine ⟨?_, ?_, ⟨v - 5, by omega, ?_⟩, ?_⟩
  · have := rawX1_bounds g cls; omega
  · have := rawY1_bounds g cls; omega
  · unfold randint; omega
  · intro r₁ r₂ h1 h2 he
    unfold randint at he
    omega

theorem C1_uniform_range_witness :
    (5 ≤ rawX1 (fun _ => 0) 0 ∧ rawX1 (fun _ => 0) 0 ≤ IMG_SIZE - 34) ∧
    (5 ≤ rawY1 (fun _ => 0) 0 ∧ rawY1 (fun _ => 0) 0 ≤ IMG_SIZE - 34) ∧
    (∃ r, r < 26 ∧ randint 5 30 r = 30) ∧
    (∀ r₁ r₂, r₁ < 26 → r₂ < 26 → randint 5 30 r₁ = randint 5 30 r₂ → r₁ = r₂) :=
  C1_uniform_range (fun _ => 0) 0 (by norm_num [NUM_CLASSES]) 30 (by norm_num)
    (by norm_num [IMG_SIZE])

/-- C2: for every sample and every class, the raw box satisfies
`0 ≤ x1 < x2 ≤ IMG_SIZE` and `0 ≤ y1 < y2 ≤ IMG_SIZE`, and the returned
normalized box satisfies `0 ≤ x1 < x2 ≤ 1` and `0 ≤ y1 < y2 ≤ 1`. -/
theorem C2_box_bounds (g : Nat → Nat) (s : Sample) (h : generate_sample g = some s)
    (cls : Nat) (hcls : cls < NUM_CLASSES) :
    (0 ≤ (rawBox g cls).x1 ∧ (rawBox g cls).x1 < (rawBox g cls).x2 ∧
      (rawBox g cls).x2 ≤ IMG_SIZE) ∧
    (0 ≤ (rawBox g cls).y1 ∧ (rawBox g cls).y1 < (rawBox g cls).y2 ∧
      (rawBox g cls).y2 ≤ IMG_SIZE) ∧
    ∃ b, s.bboxes.get? cls = some b ∧
      0 ≤ b.x1 ∧ b.x1 < b.x2 ∧ b.x2 ≤ 1 ∧ 0 ≤ b.y1 ∧ b.y1 < b.y2 ∧ b.y2 ≤ 1 := by
  rw [generate_sample_eq] at h
  obtain rfl : mkSample g = s := by injection h
  have hx := rawX1_bounds g cls
  have hy := rawY1_bounds g cls
  have hraw : (0 ≤ (rawBox g cls).x1 ∧ (rawBox g cls).x1 < (rawBox g cls).x2 ∧
      (rawBox g cls).x2 ≤ IMG_SIZE) ∧
      (0 ≤ (rawBox g cls).y1 ∧ (rawBox g cls).y1 < (rawBox g cls).y2 ∧
      (rawBox g cls).y2 ≤ IMG_SIZE) := by
    simp only [rawBox, IMG_SIZE]
    omega
  refine ⟨hraw.1, hraw.2, ?_⟩
  have hb := normBox_bounds (rawBox g cls) hraw.1.2.1 hraw.1.2.2 hraw.2.2.1 hraw.2.2.2
  simp only [NUM_CLASSES] at hcls
  interval_cases cls
  · exact ⟨normBox (rawBox g 0), rfl, hb.1, hb.2.1, hb.2.2.1, hb.2.2.2.1,
      hb.2.2.2.2.1, hb.2.2.2.2.2⟩
  · exact ⟨normBox (rawBox g 1), rfl, hb.1, hb.2.1, hb.2.2.1, hb.2.2.2.1,
      hb.2.2.2.2.1, hb.2.2.2.2.2⟩

theorem C2_box_bounds_witness :
    (0 ≤ (rawBox (fun _ => 0) 0).x1 ∧ (rawBox (fun _ => 0) 0).x1 < (rawBox (fun _ => 0) 0).x2 ∧
      (rawBox (fun _ => 0) 0).x2 ≤ IMG_SIZE) ∧
    (0 ≤ (rawBox (fun _ => 0) 0).y1 ∧ (rawBox (fun _ => 0) 0).y1 < (rawBox (fun _ => 0) 0).y2 ∧
      (rawBox (fun _ => 0) 0).y2 ≤ IMG_SIZE) ∧
    ∃ b, (mkSample (fun _ => 0)).bboxes.get? 0 = some b ∧
      0 ≤ b.x1 ∧ b.x1 < b.x2 ∧ b.x2 ≤ 1 ∧ 0 ≤ b.y1 ∧ b.y1 < b.y2 ∧ b.y2 ≤ 1 :=
  C2_box_bounds (fun _ => 0) (mkSample (fun _ => 0)) (generate_sample_eq _) 0
    (by norm_num [NUM_CLASSES])

/-- C3: every returned normalized box has fixed side lengths
`x2 - x1 = 20 / IMG_SIZE` and `y2 - y1 = 20 / IMG_SIZE`, whatever the
shape's position. -/
theorem C3_fixed_size (g : Nat → Nat) (s : Sample) (h : generate_sample g = some s)
    (cls : Nat) (hcls : cls < NUM_CLASSES) :
    ∃ b, s.bboxes.get? cls = some b ∧
      b.x2 - b.x1 = 20 / (IMG_SIZE : ℚ) ∧ b.y2 - b.y1 = 20 / (IMG_SIZE : ℚ) := by
  rw [generate_sample_eq] at h
  obtain rfl : mkSample g = s := by injection h
  have key : ∀ c, (normBox (rawBox g c)).x2 - (normBox (rawBox g c)).x1 = 20 / (IMG_SIZE : ℚ) ∧
      (normBox (rawBox g c)).y2 - (normBox (rawBox g c)).y1 = 20 / (IMG_SIZE : ℚ) := by
    intro c
    unfold normBox rawBox
    constructor <;>
      · simp only
        rw [div_sub_div_same]
        push_cast
        ring_nf
  simp only [NUM_CLASSES] at hcls
  interval_cases cls
  · exact ⟨normBox (rawBox g 0), rfl, key 0⟩
  · exact ⟨normBox (rawBox g 1), rfl, key 1⟩

theorem C3_fixed_size_witness :
    ∃ b, (mkSample (fun _ => 0)).bboxes.get? 0 = some b ∧
      b.x2 - b.x1 = 20 / (IMG_SIZE : ℚ) ∧ b.y2 - b.y1 = 20 / (IMG_SIZE : ℚ) :=
  C3_fixed_size (fun _ => 0) (mkSample (fun _ => 0)) (generate_sample_eq _) 0
    (by norm_num [NUM_CLASSES])

/-- C4: the presence (labels) vector of every sample is the all-ones
vector of length `NUM_CLASSES`. -/
theorem C4_all_ones (g : Nat → Nat) (s : Sample) (h : generate_sample g = some s) :
    s.labels.length = NUM_CLASSES ∧
    ∀ cls, cls < NUM_CLASSES → s.labels.get? cls = some 1 := by
  rw [generate_sample_eq] at h
  obtain rfl : mkSample g = s := by injection h
  refine ⟨rfl, ?_⟩
  intro cls hcls
  simp only [NUM_CLASSES] at hcls
  interval_cases cls <;> rfl

theorem C4_all_ones_witness :
    (mkSample (fun _ => 0)).labels.length = NUM_CLASSES ∧
    ∀ cls, cls < NUM_CLASSES → (mkSample (fun _ => 0)).labels.get? cls = some 1 :=
  C4_all_ones (fun _ => 0) (mkSample (fun _ => 0)) (generate_sample_eq _)

lemma shiftRNG_shiftRNG (g : Nat → Nat) (a b : Nat) :
    shiftRNG (shiftRNG g a) b = shiftRNG g (b + a) := by
  funext i
  simp [shiftRNG, Nat.add_assoc]

lemma mkDataset_lengths : ∀ (n : Nat) (g : Nat → Nat),
    (mkDataset n g).1.length = n ∧ (mkDataset n g).2.1.length = n ∧
    (mkDataset n g).2.2.length = n
  | 0, _ => ⟨rfl, rfl, rfl⟩
  | n + 1, g => by
      have ih := mkDataset_lengths n (shiftRNG g 4)
      simp only [mkDataset, List.length_cons]
      omega

lemma mkDataset_get : ∀ (n : Nat) (g : Nat → Nat) (i : Nat), i < n →
    (mkDataset n g).1.get? i = some (mkSample (shiftRNG g (4 * i))).img ∧
    (mkDataset n g).2.1.get? i = some (mkSample (shiftRNG g (4 * i))).labels ∧
    (mkDataset n g).2.2.get? i = some (mkSample (shiftRNG g (4 * i))).bboxes
  | 0, _, _, hi => absurd hi (by omega)
  | n + 1, g, 0, _ => ⟨rfl, rfl, rfl⟩
  | n + 1, g, i + 1, hi => by
      have ih := mkDataset_get n (shiftRNG g 4) i (by omega)
      rw [shiftRNG_shiftRNG] at ih
      have h4 : 4 * i + 4 = 4 * (i + 1) := by ring
      rw [h4] at ih
      exact ih

/-- C5: `create_dataset n` performs one `generate_sample` call per index
(each advancing the random source by 4 draws) and returns three parallel
sequences of length exactly `n`, index-aligned: the `i`-th image,
presence vector and box set all come from the `i`-th call. -/
theorem C5_index_aligned (n : Nat) (g : Nat → Nat) (X : List NImg)
    (ycls : List (List ℚ)) (ybbox : List (List Box))
    (h : create_dataset n g = some (X, ycls, ybbox)) :
    X.length = n ∧ ycls.length = n ∧ ybbox.length = n ∧
    ∀ i, i < n → ∃ s, generate_sample (shiftRNG g (4 * i)) = some s ∧
      X.get? i = some s.img ∧ ycls.get? i = some s.labels ∧
      ybbox.get? i = some s.bboxes := by
  rw [create_dataset_eq] at h
  have h' : mkDataset n g = (X, ycls, ybbox) := by injection h
  have hX : X = (mkDataset n g).1 := by rw [h']
  have hy : ycls = (mkDataset n g).2.1 := by rw [h']
  have hb : ybbox = (mkDataset n g).2.2 := by rw [h']
  subst hX; subst hy; subst hb
  refine ⟨(mkDataset_lengths n g).1, (mkDataset_lengths n g).2.1,
    (mkDataset_lengths n g).2.2, ?_⟩
  intro i hi
  exact ⟨mkSample (shiftRNG g (4 * i)), generate_sample_eq _,
    (mkDataset_get n g i hi).1, (mkDataset_get n g i hi).2.1,
    (mkDataset_get n g i hi).2.2⟩

theorem C5_index_aligned_witness :
    (mkDataset 1 (fun _ => 0)).1.length = 1 ∧
    (mkDataset 1 (fun _ => 0)).2.1.length = 1 ∧
    (mkDataset 1 (fun _ => 0)).2.2.length = 1 ∧
    ∀ i, i < 1 → ∃ s, generate_sample (shiftRNG (fun _ => 0) (4 * i)) = some s ∧
      (mkDataset 1 (fun _ => 0)).1.get? i = some s.img ∧
      (mkDataset 1 (fun _ => 0)).2.1.get? i = some s.labels ∧
      (mkDataset 1 (fun _ => 0)).2.2.get? i = some s.bboxes :=
  C5_index_aligned 1 (fun _ => 0) _ _ _ (create_dataset_eq 1 (fun _ => 0))

/-- The random source of the worked example: raw draws 5, 5, 15, 10
make `randint 5 30` produce 10, 10, 20, 15. -/
def rngC6 : Nat → Nat := fun i => List.getD [5, 5, 15, 10] i 0

/-- C6: with `IMG_SIZE = 64` and `NUM_CLASSES = 2`, when the random
source yields `x1 = 10, y1 = 10` for class 0 and `x1 = 20, y1 = 15` for
class 1, `generate_sample` returns
`boxes[0] = (0.15625, 0.15625, 0.46875, 0.46875)` and
`boxes[1] = (0.3125, 0.234375, 0.625, 0.546875)`. -/
theorem C6_example :
    ∃ s, generate_sample rngC6 = some s ∧
      rawX1 rngC6 0 = 10 ∧ rawY1 rngC6 0 = 10 ∧
      rawX1 rngC6 1 = 20 ∧ rawY1 rngC6 1 = 15 ∧
      s.bboxes = [⟨0.15625, 0.15625, 0.46875, 0.46875⟩,
                  ⟨0.3125, 0.234375, 0.625, 0.546875⟩] := by
  refine ⟨mkSample rngC6, generate_sample_eq _, rfl, rfl, rfl, rfl, ?_⟩
  show [normBox (rawBox rngC6 0), normBox (rawBox rngC6 1)] = _
  norm_num [normBox, rawBox, rawX1, rawY1, randint, rngC6, IMG_SIZE, Box.mk.injEq]

lemma rawBox_congr (g₁ g₂ : Nat → Nat) (cls : Nat)
    (h1 : g₁ (2 * cls) = g₂ (2 * cls)) (h2 : g₁ (2 * cls + 1) = g₂ (2 * cls + 1)) :
    rawBox g₁ cls = rawBox g₂ cls := by
  simp [rawBox, rawX1, rawY1, h1, h2]

lemma mkSample_congr (g₁ g₂ : Nat → Nat) (h : ∀ i, i < 4 → g₁ i = g₂ i) :
    mkSample g₁ = mkSample g₂ := by
  have h0 : rawBox g₁ 0 = rawBox g₂ 0 :=
    rawBox_congr g₁ g₂ 0 (h 0 (by norm_num)) (h 1 (by norm_num))
  have h1 : rawBox g₁ 1 = rawBox g₂ 1 :=
    rawBox_congr g₁ g₂ 1 (h 2 (by norm_num)) (h 3 (by norm_num))
  unfold mkSample
  rw [h0, h1]

lemma mkDataset_congr : ∀ (n : Nat) (g₁ g₂ : Nat → Nat),
    (∀ i, i < 4 * n → g₁ i = g₂ i) → mkDataset n g₁ = mkDataset n g₂
  | 0, _, _, _ => rfl
  | n + 1, g₁, g₂, h => by
      have hs := mkSample_congr g₁ g₂ (fun i hi => h i (by omega))
      have ht := mkDataset_congr n (shiftRNG g₁ 4) (shiftRNG g₂ 4)
        (fun i hi => h (i + 4) (by omega))
      simp only [mkDataset]
      rw [hs, ht]

lemma create_dataset_congr (n : Nat) (g₁ g₂ : Nat → Nat)
    (h : ∀ i, i < 4 * n → g₁ i = g₂ i) :
    create_dataset n g₁ = create_dataset n g₂ := by
  rw [create_dataset_eq, create_dataset_eq, mkDataset_congr n g₁ g₂ h]

/-- C7: the generator is a pure function of the random source's state:
two runs whose sources agree on the draws they consume (4 per sample)
produce identical samples and identical datasets, so identical seeding
gives bit-identical outputs. -/
theorem C7_reproducible (n : Nat) (g₁ g₂ : Nat → Nat)
    (hsample : ∀ i, i < 2 * NUM_CLASSES → g₁ i = g₂ i)
    (hdata : ∀ i, i < 2 * NUM_CLASSES * n → g₁ i = g₂ i) :
    generate_sample g₁ = generate_sample g₂ ∧
    create_dataset n g₁ = create_dataset n g₂ := by
  constructor
  · rw [generate_sample_eq, generate_sample_eq,
      mkSample_congr g₁ g₂ (fun i hi => hsample i hi)]
  · exact create_dataset_congr n g₁ g₂ (fun i hi => hdata i hi)

/-- A second random source that agrees with `fun _ => 0` on the first
four draws and differs afterwards. -/
def rngC7 : Nat → Nat := fun i => if i < 4 then 0 else 7

theorem C7_reproducible_witness :
    generate_sample (fun _ => 0) = generate_sample rngC7 ∧
    create_dataset 1 (fun _ => 0) = create_dataset 1 rngC7 :=
  C7_reproducible 1 (fun _ => 0) rngC7
    (fun i hi => by
      have h4 : i < 4 := hi
      simp [rngC7, h4])
    (fun i hi => by
      have h4 : i < 4 := hi
      simp [rngC7, h4])

/-- C8: `generate_sample` is total — for every state of the random
source the bounds-checked writes succeed and a sample is returned; no
error branch is reachable. -/
theorem C8_total (g : Nat → Nat) : ∃ s, generate_sample g = some s :=
  ⟨mkSample g, generate_sample_eq g⟩

/-- C9: within each sample the class-0 rectangle is rendered before the
class-1 ellipse, so every canvas pixel covered by both shapes holds the
normalized class-1 color blue `(0, 0, 1)`, and a pixel covered by the
rectangle alone holds red `(1, 0, 0)` — the later shape occludes the
earlier one, never the reverse. -/
theorem C9_occlusion (g : Nat → Nat) (s : Sample) (h : generate_sample g = some s)
    (px py : Nat) :
    (inRect (rawBox g 0) px py = true → inEllipse (rawBox g 1) px py = true →
      s.img px py = ((0 : ℚ), (0 : ℚ), (1 : ℚ))) ∧
    (inRect (rawBox g 0) px py = true → inEllipse (rawBox g 1) px py = false →
      s.img px py = ((1 : ℚ), (0 : ℚ), (0 : ℚ))) := by
  rw [generate_sample_eq] at h
  obtain rfl : mkSample g = s := by injection h
  constructor
  · intro hr he
    show normalizeImg (drawShape 1 (rawBox g 1) (drawShape 0 (rawBox g 0) blackImg)) px py = _
    norm_num [drawShape, drawEllipse, drawRect, normalizeImg, normColor, blue, he, hr]
  · intro hr he
    show normalizeImg (drawShape 1 (rawBox g 1) (drawShape 0 (rawBox g 0) blackImg)) px py = _
    norm_num [drawShape, drawEllipse, drawRect, normalizeImg, normColor, red, he, hr]

theorem C9_occlusion_witness :
    (mkSample (fun _ => 5)).img 20 20 = ((0 : ℚ), (0 : ℚ), (1 : ℚ)) ∧
    (mkSample (fun _ => 5)).img 10 10 = ((1 : ℚ), (0 : ℚ), (0 : ℚ)) :=
  ⟨(C9_occlusion (fun _ => 5) (mkSample (fun _ => 5)) (generate_sample_eq _) 20 20).1
      (by decide) (by decide),
   (C9_occlusion (fun _ => 5) (mkSample (fun _ => 5)) (generate_sample_eq _) 10 10).2
      (by decide) (by decide)⟩

/-- C10: `create_dataset` enforces no positivity precondition on its
count: for every `n` (including 0) it returns three index-aligned
sequences of length exactly `n`, so `create_dataset 0` yields three
empty sequences instead of failing. -/
theorem C10_zero_count (n : Nat) (g : Nat → Nat) :
    create_dataset 0 g = some ([], [], []) ∧
    ∃ X ycls ybbox, create_dataset n g = some (X, ycls, ybbox) ∧
      X.length = n ∧ ycls.length = n ∧ ybbox.length = n :=
  ⟨rfl, (mkDataset n g).1, (mkDataset n g).2.1, (mkDataset n g).2.2,
    create_dataset_eq n g, (mkDataset_lengths n g).1,
    (mkDataset_lengths n g).2.1, (mkDataset_lengths n g).2.2⟩

end ObjDet
